import Mathlib

/-!
# Verification of the concurrent agent message-processing core

Shallow embedding of `internal/agent/channel_agent.go` and
`internal/agent/agent.go` (the `ChannelAgent` actor: Submit/Send, the
dispatcher loop `processMessages`, the per-request worker goroutine, and
`Close`), together with theorems settling the spec's claims about it.

Modelling conventions:
* A Go channel is a bounded FIFO buffer plus a closed flag.  A non-blocking
  send (`select` with a `default` arm) appends when there is room, takes the
  `default` arm when the buffer is full, and is a runtime fault ("send on
  closed channel") when the channel is closed.  Closing an already-closed
  channel is likewise a fault.  Faults are modelled as `Option`/explicit
  outcomes, never swallowed.
* Errors (`error` values) are modelled as their message strings; the backend
  `llm.Generate` call is a parameter of type `String → Except String String`.
* The cancellation token is modelled as booleans sampled at the points where
  the code checks it; once cancelled it stays cancelled, which the theorems
  take as monotonicity hypotheses.  A `select` in which a `<-ctx.Done()` arm
  is ready together with another ready arm is resolved in favour of the
  `Done` arm; this is one admissible scheduling of Go's randomized choice.
* Single operations are embedded as pure state transformers; the two claims
  about interleavings of concurrent calls are settled on small-step
  transition relations whose atomic steps are the code's atomic actions
  (one mutex-protected flag access, one channel operation).
-/

namespace Legion

/-- A Go channel as used by `ChannelAgent`: a bounded FIFO buffer of
capacity `cap` plus a closed flag. -/
structure Chan (α : Type) where
  buf : List α
  cap : Nat
  isClosed : Bool
deriving Repr, DecidableEq

/-- Outcome of a non-blocking send (a Go `select` with a `default` arm):
`sent` when the buffer had room, `full` when the `default` arm fired, and
`panicked` for the "send on closed channel" runtime fault. -/
inductive TrySend (α : Type) where
  | sent (c : Chan α)
  | full
  | panicked
deriving Repr, DecidableEq

/-- Non-blocking send.  Go semantics: a send on a closed channel faults no
matter how full the buffer is; otherwise the value is appended when there is
room and the `default` arm fires when there is not. -/
def Chan.trySend {α : Type} (c : Chan α) (x : α) : TrySend α :=
  if c.isClosed then .panicked
  else if c.buf.length < c.cap then .sent { c with buf := c.buf ++ [x] }
  else .full

/-- `close(ch)`: marks the channel closed (buffered values stay readable). -/
def Chan.closeCh {α : Type} (c : Chan α) : Chan α :=
  { c with isClosed := true }

/-- The fields of `AgentConfig` that the verified operations consult
(`Agent.Run` validates exactly `Name` and `Instruction`; the remaining
configuration fields do not affect any behaviour covered by the claims). -/
structure AgentConfig where
  name : String
  instruction : String
deriving Repr, DecidableEq

/-- State of a `ChannelAgent` (channel_agent.go lines 13-22): the four
channels, the `closed` flag guarded by `mu`, and whether the `closeOnce`
guard has already fired. -/
structure ChannelAgent where
  config : AgentConfig
  input : Chan String
  output : Chan String
  done : Chan Unit
  errors : Chan String
  closed : Bool
  closeOnceDone : Bool
deriving Repr, DecidableEq

/-- `NewChannelAgent` (channel_agent.go lines 25-33): input, output and
errors are created with buffer 100, done unbuffered, all open, `closed`
false, the once-guard not yet fired. -/
def NewChannelAgent (config : AgentConfig) : ChannelAgent :=
  { config := config
    input := { buf := [], cap := 100, isClosed := false }
    output := { buf := [], cap := 100, isClosed := false }
    done := { buf := [], cap := 0, isClosed := false }
    errors := { buf := [], cap := 100, isClosed := false }
    closed := false
    closeOnceDone := false }

/-- `Agent.Run` (agent.go lines 76-89): validates the configuration and
otherwise succeeds. -/
def Agent.run (config : AgentConfig) : Except String Unit :=
  if config.name = "" then .error "agent name is required"
  else if config.instruction = "" then .error "agent instruction is required"
  else .ok ()

/-- `RunningAgent.Send` (agent.go lines 98-125): checks cancellation, then
calls the backend (`llm.Generate`) and wraps its error; `cancelled` is the
token's state at the check.  On success the response content is returned
unmodified. -/
def RunningAgent.send (cancelled : Bool) (backend : String → Except String String)
    (msg : String) : Except String String :=
  if cancelled then .error "context canceled"
  else
    match backend msg with
    | .error e => .error ("failed to get LLM completion: " ++ e)
    | .ok resp => .ok resp

/-- `ChannelAgent.Start` (channel_agent.go lines 36-47): runs the base
agent's validation; on error it returns the wrapped error, leaves the state
untouched and spawns no processing loop; on success it spawns the loop.
Result: the returned error, the agent state afterwards, and whether the
`processMessages` goroutine was spawned. -/
def ChannelAgent.start (ca : ChannelAgent) :
    Except String Unit × ChannelAgent × Bool :=
  match Agent.run ca.config with
  | .error e => (.error ("failed to start agent: " ++ e), ca, false)
  | .ok _ => (.ok (), ca, true)

/-- Result of `ChannelAgent.Send` (the spec's `Submit`): success, the
"agent is closed" error, the "input channel full" error, or the
send-on-closed-channel runtime fault. -/
inductive SendResult where
  | ok
  | errClosed
  | errFull
  | panicked
deriving Repr, DecidableEq

/-- `ChannelAgent.Send` (channel_agent.go lines 137-154): read `closed`
under the read-lock; if set, fail with the "agent is closed" error;
otherwise perform the non-blocking send on `input`. -/
def ChannelAgent.send (ca : ChannelAgent) (msg : String) :
    SendResult × ChannelAgent :=
  if ca.closed then (.errClosed, ca)
  else
    match ca.input.trySend msg with
    | .sent c => (.ok, { ca with input := c })
    | .full => (.errFull, ca)
    | .panicked => (.panicked, ca)

/-- Modelled from the spec (§4.1), for comparison with `ChannelAgent.send`:
"if `closed == true`, fail immediately with an agent-closed error.
Otherwise attempt a non-blocking enqueue; if the queue is at capacity, fail
immediately with a queue-full error"; otherwise the request is enqueued and
Submit succeeds. -/
def submitSpec (ca : ChannelAgent) (msg : String) : SendResult × ChannelAgent :=
  if ca.closed then (.errClosed, ca)
  else if ca.input.buf.length < ca.input.cap then
    (.ok, { ca with input := { ca.input with buf := ca.input.buf ++ [msg] } })
  else (.errFull, ca)

/-- `ChannelAgent.Close` (channel_agent.go lines 177-197), one call taken
atomically (`sync.Once` serializes concurrent callers and makes every call
after the first a no-op).  The body sets `closed`, then closes input, done,
errors and output.  The `time.Sleep(100ms)` between the two groups performs
no synchronization and has no effect on the sequential state; its failure
to act as a completion barrier is analysed on the interleaving model below.
`none` models the "close of closed channel" runtime fault, which the body
would hit if any channel were already closed when it runs. -/
def ChannelAgent.close (ca : ChannelAgent) : Option ChannelAgent :=
  if ca.closeOnceDone then some ca
  else if ca.input.isClosed || ca.done.isClosed || ca.errors.isClosed
      || ca.output.isClosed then none
  else some { ca with
    closed := true
    input := ca.input.closeCh
    done := ca.done.closeCh
    errors := ca.errors.closeCh
    output := ca.output.closeCh
    closeOnceDone := true }

/-- One worker goroutine (channel_agent.go lines 82-130), run to completion.
`cStart`, `cBackend`, `cDeliver` are the cancellation token's state at the
three points the code samples it: the worker's initial `select` on
`ctx.Done()`, the check inside `RunningAgent.Send`, and the delivery
`select`s.  On a backend error the worker attempts a non-blocking send of
the wrapped error to `errors` (this path reads neither `closed` nor any
other agent flag); on success it checks cancellation, then reads `closed`
under the read-lock, and only if it is unset attempts the non-blocking send
of the response to `output`, falling back to a best-effort
"output channel full" report on `errors`.  `none` models a
send-on-closed-channel fault in any of the three sends. -/
def workerRun (cStart cBackend cDeliver : Bool) (ca : ChannelAgent)
    (backend : String → Except String String) (msg : String) :
    Option ChannelAgent :=
  if cStart then some ca
  else
    match RunningAgent.send cBackend backend msg with
    | .error e =>
        if cDeliver then some ca
        else
          match ca.errors.trySend ("failed to process message: " ++ e) with
          | .sent c => some { ca with errors := c }
          | .full => some ca
          | .panicked => none
    | .ok resp =>
        if cDeliver then some ca
        else if ca.closed then some ca
        else
          match ca.output.trySend resp with
          | .sent c => some { ca with output := c }
          | .full =>
              if cDeliver then some ca
              else
                match ca.errors.trySend "output channel full" with
                | .sent c => some { ca with errors := c }
                | .full => some ca
                | .panicked => none
          | .panicked => none

/-- Outcome of one iteration of the dispatcher loop in `processMessages`
(channel_agent.go lines 57-81): the loop exits, blocks waiting for input,
or dequeues a message and spawns a worker for it. -/
inductive DispatchStep where
  | exitLoop (ca : ChannelAgent)
  | blocked
  | spawn (msg : String) (ca : ChannelAgent)
deriving Repr, DecidableEq

/-- One iteration of the dispatcher loop.  On cancellation it sets `closed`
and returns.  A receive on `input` yields buffered values first even after
the channel is closed; an empty closed channel yields `ok == false` and the
loop exits; after a successful receive the loop re-checks `closed` and
drops the message (exiting) if it is set, otherwise spawns a worker. -/
def dispatchOne (cancelledCtx : Bool) (ca : ChannelAgent) : DispatchStep :=
  if cancelledCtx then .exitLoop { ca with closed := true }
  else
    match ca.input.buf with
    | [] => if ca.input.isClosed then .exitLoop ca else .blocked
    | m :: rest =>
        let ca1 := { ca with input := { ca.input with buf := rest } }
        if ca.closed then .exitLoop ca1 else .spawn m ca1

/-! ## Interleaving models

Two small-step transition systems whose atomic steps are the code's atomic
actions: one mutex-protected access to the `closed` flag, or one channel
operation.  They settle the two claims about concurrent interleavings of
`Send`/`Close` and of `Close` with an in-flight worker. -/

/-- Program counter of one caller inside `ChannelAgent.Send`:
before the locked read of `closed`, after it (remembering the value read),
or returned with a result. -/
inductive SubmitPC where
  | start
  | checked (sawClosed : Bool)
  | finished (r : SendResult)
deriving Repr, DecidableEq

/-- Program counter of one caller inside the `closeOnce` body of
`ChannelAgent.Close` (channel_agent.go lines 178-196): about to set the
flag; flag set, about to `close(ca.input)`; about to `close(ca.done)`;
inside `time.Sleep(100ms)`; about to close `errors` and `output`; returned. -/
inductive ClosePC where
  | start
  | flagSet
  | inputClosed
  | doneClosed
  | slept
  | finished
deriving Repr, DecidableEq

/-- Joint state of one `Send(msg)` call racing one `Close()` call.
`panicked` records a send-on-closed-channel runtime fault, which crashes
the process: no further step is enabled once it is set. -/
structure RaceState where
  agent : ChannelAgent
  submit : SubmitPC
  close : ClosePC
  panicked : Bool
deriving Repr, DecidableEq

/-- Atomic steps of the Send/Close race.  The Send caller reads `closed`
under the read-lock in one step, then acts on the value it saw in a later
step; the Close caller's five steps mirror the `closeOnce` body.  The
`time.Sleep` step has no enabling condition beyond program order: it
synchronizes with nothing. -/
inductive RaceStep (msg : String) : RaceState → RaceState → Prop where
  | submitCheck (a : ChannelAgent) (c : ClosePC) (b : Bool) (h : a.closed = b) :
      RaceStep msg ⟨a, .start, c, false⟩ ⟨a, .checked b, c, false⟩
  | submitSawClosed (a : ChannelAgent) (c : ClosePC) :
      RaceStep msg ⟨a, .checked true, c, false⟩ ⟨a, .finished .errClosed, c, false⟩
  | submitEnqueue (a : ChannelAgent) (c : ClosePC) (c2 : Chan String)
      (h : a.input.trySend msg = .sent c2) :
      RaceStep msg ⟨a, .checked false, c, false⟩
        ⟨{ a with input := c2 }, .finished .ok, c, false⟩
  | submitFull (a : ChannelAgent) (c : ClosePC)
      (h : a.input.trySend msg = .full) :
      RaceStep msg ⟨a, .checked false, c, false⟩ ⟨a, .finished .errFull, c, false⟩
  | submitPanic (a : ChannelAgent) (c : ClosePC)
      (h : a.input.trySend msg = .panicked) :
      RaceStep msg ⟨a, .checked false, c, false⟩ ⟨a, .finished .panicked, c, true⟩
  | closeSetFlag (a : ChannelAgent) (s : SubmitPC) :
      RaceStep msg ⟨a, s, .start, false⟩
        ⟨{ a with closed := true }, s, .flagSet, false⟩
  | closeInput (a : ChannelAgent) (s : SubmitPC) :
      RaceStep msg ⟨a, s, .flagSet, false⟩
        ⟨{ a with input := a.input.closeCh }, s, .inputClosed, false⟩
  | closeDone (a : ChannelAgent) (s : SubmitPC) :
      RaceStep msg ⟨a, s, .inputClosed, false⟩
        ⟨{ a with done := a.done.closeCh }, s, .doneClosed, false⟩
  | closeSleep (a : ChannelAgent) (s : SubmitPC) :
      RaceStep msg ⟨a, s, .doneClosed, false⟩ ⟨a, s, .slept, false⟩
  | closeRest (a : ChannelAgent) (s : SubmitPC) :
      RaceStep msg ⟨a, s, .slept, false⟩
        ⟨{ a with
           errors := a.errors.closeCh
           output := a.output.closeCh
           closeOnceDone := true }, s, .finished, false⟩

/-- Program counter of the single in-flight worker in the drain scenario:
still inside the Backend call (counted by the WaitGroup), or completed. -/
inductive WorkerPC where
  | inBackend
  | finished
deriving Repr, DecidableEq

/-- Joint state of one `Close()` call racing one in-flight worker whose
Backend call is still running.  `inflight` is the WaitGroup counter of
`processMessages`; `Close` has no access to it. -/
structure DrainState where
  agent : ChannelAgent
  inflight : Nat
  worker : WorkerPC
  close : ClosePC
  panicked : Bool
deriving Repr, DecidableEq

/-- Atomic steps of the Close/worker drain race.  `emsg` is the wrapped
backend error the worker will try to deliver
(`failed to process message: failed to get LLM completion: <err>`).  The
worker's Backend call may return at any time — in particular after more
than 100ms, so `closeSleep` is enabled regardless of `inflight`: the fixed
sleep waits for nothing.  On return the worker attempts the non-blocking
error delivery of the code's error path, which consults no flag; if
`errors` has been closed meanwhile, the send faults. -/
inductive DrainStep (emsg : String) : DrainState → DrainState → Prop where
  | closeSetFlag (a : ChannelAgent) (n : Nat) (w : WorkerPC) :
      DrainStep emsg ⟨a, n, w, .start, false⟩
        ⟨{ a with closed := true }, n, w, .flagSet, false⟩
  | closeInput (a : ChannelAgent) (n : Nat) (w : WorkerPC) :
      DrainStep emsg ⟨a, n, w, .flagSet, false⟩
        ⟨{ a with input := a.input.closeCh }, n, w, .inputClosed, false⟩
  | closeDone (a : ChannelAgent) (n : Nat) (w : WorkerPC) :
      DrainStep emsg ⟨a, n, w, .inputClosed, false⟩
        ⟨{ a with done := a.done.closeCh }, n, w, .doneClosed, false⟩
  | closeSleep (a : ChannelAgent) (n : Nat) (w : WorkerPC) :
      DrainStep emsg ⟨a, n, w, .doneClosed, false⟩ ⟨a, n, w, .slept, false⟩
  | closeRest (a : ChannelAgent) (n : Nat) (w : WorkerPC) :
      DrainStep emsg ⟨a, n, w, .slept, false⟩
        ⟨{ a with
           errors := a.errors.closeCh
           output := a.output.closeCh
           closeOnceDone := true }, n, w, .finished, false⟩
  | workerErrSent (a : ChannelAgent) (n : Nat) (c : ClosePC) (c2 : Chan String)
      (h : a.errors.trySend emsg = .sent c2) :
      DrainStep emsg ⟨a, n + 1, .inBackend, c, false⟩
        ⟨{ a with errors := c2 }, n, .finished, c, false⟩
  | workerErrFull (a : ChannelAgent) (n : Nat) (c : ClosePC)
      (h : a.errors.trySend emsg = .full) :
      DrainStep emsg ⟨a, n + 1, .inBackend, c, false⟩ ⟨a, n, .finished, c, false⟩
  | workerErrPanic (a : ChannelAgent) (n : Nat) (c : ClosePC)
      (h : a.errors.trySend emsg = .panicked) :
      DrainStep emsg ⟨a, n + 1, .inBackend, c, false⟩
        ⟨a, n + 1, .inBackend, c, true⟩

/-- The configuration used by the concrete scenarios below. -/
def cfg0 : AgentConfig := { name := "assistant", instruction := "help" }

/-- The wrapped backend error delivered by the worker in the drain
scenario. -/
def drainMsg : String :=
  "failed to process message: failed to get LLM completion: backend timeout"

/-- Drain scenario start: a freshly constructed agent with one worker
in-flight (WaitGroup counter 1, Backend call running) as `Close` begins. -/
def drainInit : DrainState :=
  ⟨NewChannelAgent cfg0, 1, .inBackend, .start, false⟩

/-- Drain scenario end: `Close` has run to completion — all four channels
closed — while the worker is still in its Backend call and the WaitGroup
counter is still 1, and the worker's subsequent error delivery has faulted
on the closed `errors` channel. -/
def drainBad : DrainState :=
  ⟨{ NewChannelAgent cfg0 with
      closed := true
      input := { buf := [], cap := 100, isClosed := true }
      done := { buf := [], cap := 0, isClosed := true }
      errors := { buf := [], cap := 100, isClosed := true }
      output := { buf := [], cap := 100, isClosed := true }
      closeOnceDone := true },
    1, .inBackend, .finished, true⟩

/-- The schedule in which `Close` runs all five of its steps (its 100ms
sleep outlasted by the worker's Backend call) and the worker then attempts
its error delivery: reachable, and it faults. -/
theorem drainBad_reachable :
    Relation.ReflTransGen (DrainStep drainMsg) drainInit drainBad := by
  refine Relation.ReflTransGen.head (DrainStep.closeSetFlag _ _ _) ?_
  refine Relation.ReflTransGen.head (DrainStep.closeInput _ _ _) ?_
  refine Relation.ReflTransGen.head (DrainStep.closeDone _ _ _) ?_
  refine Relation.ReflTransGen.head (DrainStep.closeSleep _ _ _) ?_
  refine Relation.ReflTransGen.head (DrainStep.closeRest _ _ _) ?_
  exact Relation.ReflTransGen.single (DrainStep.workerErrPanic _ _ _ rfl)

/-! ## Claim theorems -/

/-- C10: calling Close on a constructed agent that was never started is
well-defined: it sets `closed`, closes all four channels (input, done,
errors, output), fires Done (the done channel is closed), does not fault,
and a further Close changes nothing (each channel is closed exactly
once). -/
theorem close_on_unstarted_agent (config : AgentConfig) :
    ∃ ca : ChannelAgent,
      ChannelAgent.close (NewChannelAgent config) = some ca
      ∧ ca.closed = true
      ∧ ca.input.isClosed = true ∧ ca.done.isClosed = true
      ∧ ca.errors.isClosed = true ∧ ca.output.isClosed = true
      ∧ ChannelAgent.close ca = some ca := by
  exact ⟨_, rfl, rfl, rfl, rfl, rfl, rfl, rfl⟩

/-- C3: Close is idempotent.  Provided the `closeOnce` guard has not fired
while some channel is already closed (which no execution produces: only the
guarded body closes channels), Close succeeds without fault and composing
Close with itself equals a single Close — so any number of calls,
including after cancellation already marked the agent closed, has the
effect of exactly one shutdown.  Concurrent callers are serialized by
`sync.Once`, so each call is the atomic `ChannelAgent.close`. -/
theorem close_idempotent (ca : ChannelAgent)
    (hguard : ca.closeOnceDone = false →
      ca.input.isClosed = false ∧ ca.done.isClosed = false
      ∧ ca.errors.isClosed = false ∧ ca.output.isClosed = false) :
    (∃ ca1, ChannelAgent.close ca = some ca1)
    ∧ (ChannelAgent.close ca).bind ChannelAgent.close
      = ChannelAgent.close ca := by
  cases h : ca.closeOnceDone with
  | true =>
      refine ⟨⟨ca, by simp [ChannelAgent.close, h]⟩, ?_⟩
      simp [ChannelAgent.close, h]
  | false =>
      obtain ⟨h1, h2, h3, h4⟩ := hguard h
      have hsome : ChannelAgent.close ca = some { ca with
          closed := true
          input := ca.input.closeCh
          done := ca.done.closeCh
          errors := ca.errors.closeCh
          output := ca.output.closeCh
          closeOnceDone := true } := by
        simp [ChannelAgent.close, h, h1, h2, h3, h4]
      refine ⟨⟨_, hsome⟩, ?_⟩
      rw [hsome]
      simp [ChannelAgent.close]

/-- Witness for C3: both conclusions at a concrete agent, the hypothesis
discharged by evaluation. -/
theorem close_idempotent_witness :
    (∃ ca1, ChannelAgent.close (NewChannelAgent cfg0) = some ca1)
    ∧ (ChannelAgent.close (NewChannelAgent cfg0)).bind ChannelAgent.close
      = ChannelAgent.close (NewChannelAgent cfg0) :=
  close_idempotent (NewChannelAgent cfg0) (fun _ => by decide)

/-- C4: for every input string, Submit (`ChannelAgent.Send`) never blocks
and behaves exactly as the spec's three cases: on a closed agent it fails
with the agent-closed error; otherwise, on a full InputQueue it fails with
the queue-full error; otherwise it enqueues the request and succeeds — and
it never hits the send-on-closed-channel fault.  The hypothesis is the
sequential lifecycle invariant: the input channel is only ever closed by
Close, which sets `closed` first. -/
theorem send_matches_spec (ca : ChannelAgent) (msg : String)
    (hwf : ca.input.isClosed = true → ca.closed = true) :
    ChannelAgent.send ca msg = submitSpec ca msg
    ∧ (ChannelAgent.send ca msg).1 ≠ SendResult.panicked := by
  have hio : ca.closed = false → ca.input.isClosed = false := by
    intro h
    cases hic : ca.input.isClosed with
    | false => rfl
    | true => rw [hwf hic] at h; exact absurd h (by simp)
  have heq : ChannelAgent.send ca msg = submitSpec ca msg := by
    cases hc : ca.closed with
    | true => simp [ChannelAgent.send, submitSpec, hc]
    | false =>
        have hic := hio hc
        by_cases hlen : ca.input.buf.length < ca.input.cap
        · simp [ChannelAgent.send, submitSpec, Chan.trySend, hc, hic, hlen]
        · simp [ChannelAgent.send, submitSpec, Chan.trySend, hc, hic, hlen]
  refine ⟨heq, ?_⟩
  rw [heq]
  unfold submitSpec
  split
  · simp
  · split <;> simp

/-- Witness for C4: the concrete fresh agent accepts a message and does not
fault; the lifecycle hypothesis is discharged by evaluation. -/
theorem send_matches_spec_witness :
    ChannelAgent.send (NewChannelAgent cfg0) "hello"
      = submitSpec (NewChannelAgent cfg0) "hello"
    ∧ (ChannelAgent.send (NewChannelAgent cfg0) "hello").1
      ≠ SendResult.panicked :=
  send_matches_spec (NewChannelAgent cfg0) "hello" (by decide)

/-- C9: Start spawns the processing loop and returns success exactly when
the configured Name and Instruction are both non-empty; otherwise it
returns an error, spawns no loop, and the agent state is unchanged (it is
unchanged in every case — Start only validates). -/
theorem start_validates_config (ca : ChannelAgent) :
    ((ChannelAgent.start ca).2.2 = true
      ↔ (ca.config.name ≠ "" ∧ ca.config.instruction ≠ ""))
    ∧ (ChannelAgent.start ca).2.1 = ca
    ∧ ((ChannelAgent.start ca).1 = .ok ()
      ↔ (ChannelAgent.start ca).2.2 = true) := by
  by_cases hn : ca.config.name = ""
  · simp [ChannelAgent.start, Agent.run, hn]
  · by_cases hi : ca.config.instruction = ""
    · simp [ChannelAgent.start, Agent.run, hn, hi]
    · simp [ChannelAgent.start, Agent.run, hn, hi]

/-- Counterexample to C5 as stated: on an agent whose `closed` flag is set
(not cancelled), a worker whose backend errors still sends to ErrorQueue —
the code's error-path delivery consults neither `closed` nor any other
flag, so a send is attempted (and here succeeds) on a closed agent. -/
theorem worker_error_send_ignores_closed :
    ({ NewChannelAgent cfg0 with closed := true } : ChannelAgent).closed = true
    ∧ (workerRun false false false
          { NewChannelAgent cfg0 with closed := true }
          (fun _ => Except.error "backend failure") "x").map
        (fun s => s.errors.buf)
      = some ["failed to process message: "
          ++ ("failed to get LLM completion: " ++ "backend failure")] :=
  ⟨rfl, rfl⟩

/-- C5 (amended): the worker re-checks cancellation before calling Backend
(a cancelled agent starts no backend work and delivers nothing: the run is
a no-op); on Backend error it attempts a non-blocking send to ErrorQueue,
checking cancellation but NOT the `closed` flag before sending; on success
it attempts a non-blocking send to OutputQueue, checking cancellation and
the `closed` flag immediately before sending, so no output send is
attempted once the agent is cancelled or closed, while an error send can
still occur on a closed (but not cancelled) agent. -/
theorem worker_step_sequence (ca : ChannelAgent)
    (b : String → Except String String) (m e r : String)
    (herrOpen : ca.errors.isClosed = false) :
    (∀ cS cB : Bool, workerRun cS cB true ca b m = some ca)
    ∧ (ca.closed = true →
        (workerRun false false false ca b m).map (fun s => s.output)
          = some ca.output)
    ∧ (b m = .error e → ca.errors.buf.length < ca.errors.cap →
        workerRun false false false ca b m
          = some { ca with errors := { ca.errors with
              buf := ca.errors.buf ++ ["failed to process message: "
                ++ ("failed to get LLM completion: " ++ e)] } })
    ∧ (b m = .ok r → ca.closed = false → ca.output.isClosed = false →
        ca.output.buf.length < ca.output.cap →
        workerRun false false false ca b m
          = some { ca with output := { ca.output with
              buf := ca.output.buf ++ [r] } }) := by
  refine ⟨?_, ?_, ?_, ?_⟩
  · intro cS cB
    cases cS with
    | true => simp [workerRun]
    | false =>
        cases cB with
        | true => simp [workerRun, RunningAgent.send]
        | false =>
            cases hbm : b m with
            | error e2 => simp [workerRun, RunningAgent.send, hbm]
            | ok r2 => simp [workerRun, RunningAgent.send, hbm]
  · intro hcl
    cases hbm : b m with
    | error e2 =>
        by_cases hlen : ca.errors.buf.length < ca.errors.cap
        · simp [workerRun, RunningAgent.send, hbm, Chan.trySend, herrOpen, hlen]
        · simp [workerRun, RunningAgent.send, hbm, Chan.trySend, herrOpen, hlen]
    | ok r2 => simp [workerRun, RunningAgent.send, hbm, hcl]
  · intro hbm hlen
    simp [workerRun, RunningAgent.send, hbm, Chan.trySend, herrOpen, hlen]
  · intro hbm hcl houtOpen hlen
    simp [workerRun, RunningAgent.send, hbm, hcl, Chan.trySend, houtOpen, hlen]

/-- Witness for C5 (amended): at a concrete fresh agent with an echoing
backend, a cancelled worker run is a no-op and an uncancelled one delivers
the echoed response to the output queue. -/
theorem worker_step_sequence_witness :
    workerRun false false true (NewChannelAgent cfg0)
      (fun s => Except.ok ("echo: " ++ s)) "hi" = some (NewChannelAgent cfg0)
    ∧ workerRun false false false (NewChannelAgent cfg0)
        (fun s => Except.ok ("echo: " ++ s)) "hi"
      = some { NewChannelAgent cfg0 with
          output := { (NewChannelAgent cfg0).output with
            buf := [] ++ ["echo: " ++ "hi"] } } := by
  have h := worker_step_sequence (NewChannelAgent cfg0)
    (fun s => Except.ok ("echo: " ++ s)) "hi" "e0" ("echo: " ++ "hi") rfl
  exact ⟨h.1 false false, h.2.2.2 rfl rfl rfl (by decide)⟩

/-- C7: when the output send fails because OutputQueue is full (agent
neither cancelled nor closed), the worker attempts a best-effort
"output channel full" report on ErrorQueue; if ErrorQueue is also full the
event is dropped silently — the state is unchanged and nothing faults. -/
theorem worker_secondary_error_report (ca : ChannelAgent)
    (b : String → Except String String) (m r : String)
    (hok : b m = .ok r)
    (hnc : ca.closed = false)
    (houtOpen : ca.output.isClosed = false)
    (houtFull : ¬ ca.output.buf.length < ca.output.cap)
    (herrOpen : ca.errors.isClosed = false) :
    (ca.errors.buf.length < ca.errors.cap →
      workerRun false false false ca b m
        = some { ca with errors := { ca.errors with
            buf := ca.errors.buf ++ ["output channel full"] } })
    ∧ (¬ ca.errors.buf.length < ca.errors.cap →
      workerRun false false false ca b m = some ca) := by
  constructor
  · intro hlen
    simp [workerRun, RunningAgent.send, hok, hnc, Chan.trySend, houtOpen,
      houtFull, herrOpen, hlen]
  · intro hlen
    simp [workerRun, RunningAgent.send, hok, hnc, Chan.trySend, houtOpen,
      houtFull, herrOpen, hlen]

/-- Witness for C7: an agent whose output queue has capacity 0 (always
full); the worker's response cannot be delivered and the secondary report
lands on the error queue. -/
theorem worker_secondary_error_report_witness :
    workerRun false false false
      { NewChannelAgent cfg0 with
          output := { buf := [], cap := 0, isClosed := false } }
      (fun s => Except.ok s) "m"
      = some { NewChannelAgent cfg0 with
          output := { buf := [], cap := 0, isClosed := false }
          errors := { buf := ["output channel full"], cap := 100, isClosed := false } } := by
  have h := worker_secondary_error_report
    { NewChannelAgent cfg0 with
        output := { buf := [], cap := 0, isClosed := false } }
    (fun s => Except.ok s) "m" "m" rfl rfl rfl (by decide) rfl
  exact h.1 (by decide)

/-- Counterexample to C6 as stated: first, a worker's error delivery
places a value into ErrorQueue while `closed == true`; second, on the
drain model, a schedule exists in which OutputQueue and ErrorQueue are
closed while the in-flight Worker counter is still positive — so queues
are neither populated only while `closed == false` nor closed only after
all outstanding Workers have completed. -/
theorem queue_lifecycle_counterexample :
    ((workerRun false false false { NewChannelAgent cfg0 with closed := true }
        (fun _ => Except.error "boom") "y").map (fun s => s.errors.buf.length)
      = some 1
      ∧ ({ NewChannelAgent cfg0 with closed := true } : ChannelAgent).closed
        = true)
    ∧ ∃ s : DrainState,
        Relation.ReflTransGen (DrainStep drainMsg) drainInit s
        ∧ s.agent.output.isClosed = true ∧ s.agent.errors.isClosed = true
        ∧ 0 < s.inflight :=
  ⟨⟨rfl, rfl⟩, drainBad, drainBad_reachable, rfl, rfl, by decide⟩

/-- C6 (amended): taking each operation atomically — all four queues are
created together, open and empty, at construction; Submit places nothing
into InputQueue once `closed` is set and the worker places nothing into
OutputQueue once `closed` is set, but a worker's error report may enter
ErrorQueue while `closed == true`; Submit and worker runs never close any
channel, and Close alone closes the channels, each exactly once (a repeated
Close is a no-op) — after a fixed 100ms delay, not after outstanding
Workers have completed. -/
theorem queue_lifecycle (config : AgentConfig) (ca : ChannelAgent)
    (m : String) (b : String → Except String String)
    (herrOpen : ca.errors.isClosed = false) :
    ((NewChannelAgent config).input = { buf := [], cap := 100, isClosed := false }
      ∧ (NewChannelAgent config).output = { buf := [], cap := 100, isClosed := false }
      ∧ (NewChannelAgent config).errors = { buf := [], cap := 100, isClosed := false }
      ∧ (NewChannelAgent config).done = { buf := [], cap := 0, isClosed := false }
      ∧ (NewChannelAgent config).closed = false)
    ∧ (ca.closed = true → (ChannelAgent.send ca m).2 = ca)
    ∧ (ca.closed = true →
        (workerRun false false false ca b m).map (fun s => s.output)
          = some ca.output)
    ∧ ((ChannelAgent.send ca m).2.input.isClosed = ca.input.isClosed
        ∧ (ChannelAgent.send ca m).2.output.isClosed = ca.output.isClosed
        ∧ (ChannelAgent.send ca m).2.errors.isClosed = ca.errors.isClosed
        ∧ (ChannelAgent.send ca m).2.done.isClosed = ca.done.isClosed)
    ∧ ((workerRun false false false ca b m).map (fun s =>
          (s.input.isClosed, s.output.isClosed, s.errors.isClosed,
            s.done.isClosed))
        = (workerRun false false false ca b m).map (fun _ =>
          (ca.input.isClosed, ca.output.isClosed, ca.errors.isClosed,
            ca.done.isClosed)))
    ∧ (∀ ca1, ChannelAgent.close ca = some ca1
        → ChannelAgent.close ca1 = some ca1) := by
  refine ⟨⟨rfl, rfl, rfl, rfl, rfl⟩, ?_, ?_, ?_, ?_, ?_⟩
  · intro hcl
    simp [ChannelAgent.send, hcl]
  · intro hcl
    cases hbm : b m with
    | error e2 =>
        by_cases hlen : ca.errors.buf.length < ca.errors.cap
        · simp [workerRun, RunningAgent.send, hbm, Chan.trySend, herrOpen, hlen]
        · simp [workerRun, RunningAgent.send, hbm, Chan.trySend, herrOpen, hlen]
    | ok r2 => simp [workerRun, RunningAgent.send, hbm, hcl]
  · unfold ChannelAgent.send Chan.trySend
    by_cases hcl : ca.closed = true
    · rw [if_pos hcl]
      exact ⟨rfl, rfl, rfl, rfl⟩
    · rw [if_neg hcl]
      by_cases hic : ca.input.isClosed = true
      · rw [if_pos hic]
        exact ⟨rfl, rfl, rfl, rfl⟩
      · rw [if_neg hic]
        by_cases hlen : ca.input.buf.length < ca.input.cap
        · rw [if_pos hlen]
          exact ⟨rfl, rfl, rfl, rfl⟩
        · rw [if_neg hlen]
          exact ⟨rfl, rfl, rfl, rfl⟩
  · cases hbm : b m with
    | error e2 =>
        by_cases hlen : ca.errors.buf.length < ca.errors.cap
        · simp [workerRun, RunningAgent.send, hbm, Chan.trySend, herrOpen, hlen]
        · simp [workerRun, RunningAgent.send, hbm, Chan.trySend, herrOpen, hlen]
    | ok r2 =>
        by_cases hcl : ca.closed = true
        · simp [workerRun, RunningAgent.send, hbm, hcl]
        · by_cases hoc : ca.output.isClosed = true
          · simp [workerRun, RunningAgent.send, hbm, hcl, Chan.trySend, hoc]
          · by_cases holen : ca.output.buf.length < ca.output.cap
            · simp [workerRun, RunningAgent.send, hbm, hcl, Chan.trySend,
                hoc, holen]
            · by_cases helen : ca.errors.buf.length < ca.errors.cap
              · simp [workerRun, RunningAgent.send, hbm, hcl, Chan.trySend,
                  hoc, holen, herrOpen, helen]
              · simp [workerRun, RunningAgent.send, hbm, hcl, Chan.trySend,
                  hoc, holen, herrOpen, helen]
  · intro ca1 h1
    unfold ChannelAgent.close at h1
    by_cases hdone : ca.closeOnceDone = true
    · rw [if_pos hdone] at h1
      cases h1
      simp [ChannelAgent.close, hdone]
    · rw [if_neg hdone] at h1
      by_cases hany : (ca.input.isClosed || ca.done.isClosed
          || ca.errors.isClosed || ca.output.isClosed) = true
      · rw [if_pos hany] at h1
        simp at h1
      · rw [if_neg hany] at h1
        cases h1
        simp [ChannelAgent.close]

/-- Witness for C6 (amended): the conclusions at a concrete fresh agent
with an echoing backend, hypotheses discharged by evaluation. -/
theorem queue_lifecycle_witness :
    ((ChannelAgent.send { NewChannelAgent cfg0 with closed := true } "m").2
      = { NewChannelAgent cfg0 with closed := true })
    ∧ ChannelAgent.close { NewChannelAgent cfg0 with
        closed := true
        input := { buf := [], cap := 100, isClosed := true }
        output := { buf := [], cap := 100, isClosed := true }
        done := { buf := [], cap := 0, isClosed := true }
        errors := { buf := [], cap := 100, isClosed := true }
        closeOnceDone := true }
      = some { NewChannelAgent cfg0 with
        closed := true
        input := { buf := [], cap := 100, isClosed := true }
        output := { buf := [], cap := 100, isClosed := true }
        done := { buf := [], cap := 0, isClosed := true }
        errors := { buf := [], cap := 100, isClosed := true }
        closeOnceDone := true } := by
  have h := queue_lifecycle cfg0 { NewChannelAgent cfg0 with closed := true }
    "m" (fun s => Except.ok s) rfl
  have h2 := queue_lifecycle cfg0 (NewChannelAgent cfg0)
    "m" (fun s => Except.ok s) rfl
  exact ⟨h.2.1 rfl, h2.2.2.2.2.2 _ rfl⟩

/-- C8: round trip — on a running, non-cancelled, non-closed agent with
room in its queues, a submitted text `t` is accepted by Submit, the
dispatcher dequeues exactly `t` and spawns a worker for it, and the worker
delivers on OutputQueue exactly the backend-produced response `r` with
`f t = ok r`, unmodified. -/
theorem round_trip (ca : ChannelAgent) (f : String → Except String String)
    (t r : String)
    (hf : f t = .ok r)
    (hclosed : ca.closed = false)
    (hinEmpty : ca.input.buf = [])
    (hinOpen : ca.input.isClosed = false)
    (hinCap : 0 < ca.input.cap)
    (houtOpen : ca.output.isClosed = false)
    (houtCap : ca.output.buf.length < ca.output.cap) :
    ∃ ca2 : ChannelAgent,
      (ChannelAgent.send ca t).1 = SendResult.ok
      ∧ dispatchOne false (ChannelAgent.send ca t).2 = .spawn t ca2
      ∧ (workerRun false false false ca2 f t).map (fun s => s.output.buf)
        = some (ca.output.buf ++ [r]) := by
  obtain ⟨config, inp, outp, dnch, errch, clflag, once⟩ := ca
  obtain ⟨ibuf, icap, iic⟩ := inp
  simp only at hclosed hinEmpty hinOpen hinCap houtOpen houtCap
  subst hclosed hinEmpty hinOpen
  refine ⟨⟨config, ⟨[], icap, false⟩, outp, dnch, errch, false, once⟩, ?_, ?_, ?_⟩
  · simp [ChannelAgent.send, Chan.trySend, hinCap]
  · simp [ChannelAgent.send, Chan.trySend, hinCap, dispatchOne]
  · simp [ChannelAgent.send, Chan.trySend, hinCap, workerRun,
      RunningAgent.send, hf, houtOpen, houtCap]

/-- Witness for C8: the round trip at a concrete fresh agent whose backend
echoes its input. -/
theorem round_trip_witness :
    ∃ ca2 : ChannelAgent,
      (ChannelAgent.send (NewChannelAgent cfg0) "ping").1 = SendResult.ok
      ∧ dispatchOne false (ChannelAgent.send (NewChannelAgent cfg0) "ping").2
        = .spawn "ping" ca2
      ∧ (workerRun false false false ca2
          (fun s => Except.ok ("pong: " ++ s)) "ping").map
            (fun s => s.output.buf)
        = some ([] ++ ["pong: " ++ "ping"]) :=
  round_trip (NewChannelAgent cfg0) (fun s => Except.ok ("pong: " ++ s))
    "ping" ("pong: " ++ "ping") rfl rfl rfl rfl (by decide) rfl (by decide)

/-- C1 (refuting trace): interleaving one Submit("x") with one Close() on
a fresh agent, Submit can read `closed == false`, Close can then set the
flag and close InputQueue, and Submit's pending select-send then faults
with a send-on-closed-channel, crashing the process — the checked state is
stale by the time the send executes. -/
theorem submit_close_race_panic :
    ∃ s : RaceState,
      Relation.ReflTransGen (RaceStep "x")
        ⟨NewChannelAgent cfg0, .start, .start, false⟩ s
      ∧ s.panicked = true := by
  refine ⟨⟨{ NewChannelAgent cfg0 with
              closed := true
              input := { buf := [], cap := 100, isClosed := true } },
            .finished .panicked, .inputClosed, true⟩, ?_, rfl⟩
  refine Relation.ReflTransGen.head (RaceStep.submitCheck _ _ false rfl) ?_
  refine Relation.ReflTransGen.head (RaceStep.closeSetFlag _ _) ?_
  refine Relation.ReflTransGen.head (RaceStep.closeInput _ _) ?_
  exact Relation.ReflTransGen.single (RaceStep.submitPanic _ _ rfl)

/-- C2 (refuting trace): Close's fixed 100ms sleep is not a completion
barrier — every step of Close can run while the single in-flight worker's
Backend call is still outstanding, so OutputQueue and ErrorQueue are
closed while the in-flight counter is still 1, and the worker's
subsequent delivery attempt faults on the closed queue. -/
theorem close_closes_queues_before_workers_finish :
    ∃ s : DrainState,
      Relation.ReflTransGen (DrainStep drainMsg) drainInit s
      ∧ s.agent.output.isClosed = true ∧ s.agent.errors.isClosed = true
      ∧ s.inflight = 1 ∧ s.panicked = true :=
  ⟨drainBad, drainBad_reachable, rfl, rfl, rfl, rfl⟩

end Legion
